import Mathlib

/-!
Shallow embedding of the interactive terminal layer of `rust4p`
(`src/main.rs`): the annotate pager (`annotate_viewer`, `find_search_matches`,
`render_annotate_page`), the multi-select file selector
(`interactive_file_select`), the single-select widget
(`interactive_select_with_desc`), and the raw-mode session management of
`cmd_annotate`.  Strings are modelled as `List Char`, the Rust `usize`
saturating subtraction as `Nat` subtraction, and `HashSet<usize>` as
`Finset Nat`.
-/

set_option maxRecDepth 20000

namespace Rust4p

/-- One parsed line of `p4 annotate` output (struct `AnnotateLine` in
`src/perforce.rs`): changelist number, user, date and the line text. -/
structure AnnotateLine where
  cl_number : List Char
  username : List Char
  date : List Char
  line_content : List Char
  deriving DecidableEq, Inhabited

/-- Lowercasing of a string, modelling Rust `str::to_lowercase` (per-char
lowercase; the characters exercised here are ASCII, where the two agree). -/
def toLowerStr (s : List Char) : List Char := s.map Char.toLower

/-- Substring containment, modelling Rust `str::contains(&str)`. -/
def containsSub (s q : List Char) : Bool := decide (q <:+: s)

/-- Does a line match the query?  Mirrors the predicate inside
`find_search_matches` (main.rs lines 3009-3014): any of the four tracked
fields, lowercased, contains the query. -/
def matchesLine (l : AnnotateLine) (q : List Char) : Bool :=
  containsSub (toLowerStr l.cl_number) q
    || containsSub (toLowerStr l.username) q
    || containsSub (toLowerStr l.date) q
    || containsSub (toLowerStr l.line_content) q

/-- `find_search_matches` (main.rs lines 3005-3017): enumerate the lines,
keep the indices of those matching the query. -/
def find_search_matches (lines : List AnnotateLine) (q : List Char) : List Nat :=
  ((lines.enum).filter (fun p => matchesLine p.2 q)).map Prod.fst

/-- Mutable state of `annotate_viewer` (main.rs lines 2755-2759). -/
structure ViewerState where
  top_line : Nat
  search_query : Option (List Char)
  search_matches : List Nat
  current_match_idx : Option Nat
  deriving DecidableEq

/-- The pager keys whose handlers the claims are about
(main.rs lines 2770-2828). -/
inductive PagerKey where
  | pageDown   -- PageDown or Space
  | pageUp
  | lineDown   -- Down or j
  | lineUp     -- Up or k
  | home       -- Home or g
  | endKey     -- End or G
  | nextMatch  -- n
  | prevMatch  -- p or N
  deriving DecidableEq

/-- One iteration of the `annotate_viewer` key dispatch
(main.rs lines 2770-2828), for the non-search keys.  `visible` is
`visible_lines = term_height - 2`; `Nat` subtraction models the
`saturating_sub` calls. -/
def viewerStep (lines : List AnnotateLine) (visible : Nat)
    (st : ViewerState) (k : PagerKey) : ViewerState :=
  match k with
  | .pageDown => { st with top_line := min (st.top_line + visible) (lines.length - 1) }
  | .pageUp   => { st with top_line := st.top_line - visible }
  | .lineDown => { st with top_line := min (st.top_line + 1) (lines.length - visible) }
  | .lineUp   => { st with top_line := st.top_line - 1 }
  | .home     => { st with top_line := 0 }
  | .endKey   => { st with top_line := lines.length - visible }
  | .nextMatch =>
      match st.current_match_idx with
      | some idx =>
          if st.search_matches.isEmpty then st
          else
            let next := (idx + 1) % st.search_matches.length
            { st with current_match_idx := some next,
                      top_line := st.search_matches.getD next 0 - visible / 2 }
      | none => st
  | .prevMatch =>
      match st.current_match_idx with
      | some idx =>
          if st.search_matches.isEmpty then st
          else
            let prev := if idx = 0 then st.search_matches.length - 1 else idx - 1
            { st with current_match_idx := some prev,
                      top_line := st.search_matches.getD prev 0 - visible / 2 }
      | none => st

/-- The `/` handler of `annotate_viewer` after a non-empty query is
committed (main.rs lines 2790-2806): lowercase the query, recompute the
match list, set `current_match_idx`, and centre the first match if any. -/
def commitSearch (lines : List AnnotateLine) (visible : Nat)
    (st : ViewerState) (query : List Char) : ViewerState :=
  let q := toLowerStr query
  let ms := find_search_matches lines q
  let cur : Option Nat := if ms.isEmpty then none else some 0
  let tl := if ms.isEmpty then st.top_line else ms.headD 0 - visible / 2
  { top_line := tl, search_query := some q, search_matches := ms,
    current_match_idx := cur }

/-! ## Multi-select file selector (`interactive_file_select`) -/

/-- Display item of the selector (enum `SelectItem`, main.rs lines 1689-1693):
either a changelist header or a leaf file (index into the files array). -/
inductive SelectItem where
  | clHeader (cl : List Char)
  | file (idx : Nat)
  deriving DecidableEq

/-- Is an item a changelist header (the `matches!(.., SelectItem::ClHeader(_))`
tests in the Tab and BackTab handlers)? -/
def SelectItem.isHeader : SelectItem → Bool
  | .clHeader _ => true
  | .file _ => false

/-- Cursor movement of the Up handler (main.rs lines 1851-1858, and
identically lines 2533-2540 of `interactive_select_with_desc`): decrement,
wrapping from the first item to the last. -/
def moveUp (len cur : Nat) : Nat :=
  if cur > 0 then cur - 1 else len - 1

/-- Cursor movement of the Down handler (main.rs lines 1859-1866, and
identically lines 2541-2548 of `interactive_select_with_desc`): increment,
wrapping from the last item to the first. -/
def moveDown (len cur : Nat) : Nat :=
  if cur < len - 1 then cur + 1 else 0

/-- The Space handler on a `ClHeader` (main.rs lines 1909-1925): if every
file of the changelist is selected, remove them all from the selection set;
otherwise insert them all. -/
def toggleHeader (fileIndices : List Nat) (sel : Finset Nat) : Finset Nat :=
  if fileIndices.all (fun i => decide (i ∈ sel)) then
    fileIndices.foldl (fun s i => s.erase i) sel
  else
    fileIndices.foldl (fun s i => insert i s) sel

/-- The Space handler on a `File` (main.rs lines 1926-1933): toggle the
single file index. -/
def toggleFile (idx : Nat) (sel : Finset Nat) : Finset Nat :=
  if idx ∈ sel then sel.erase idx else insert idx sel

/-- Keys handled by `interactive_file_select` (main.rs lines 1850-1963). -/
inductive SelectKey where
  | up
  | down
  | tab
  | backTab
  | space
  | enter
  | esc      -- Esc or the q character
  deriving DecidableEq

/-- Mutable state of the selector loop: cursor index and selection set
(main.rs lines 1731-1732). -/
structure FileSelectState where
  selected_idx : Nat
  selected_set : Finset Nat
  deriving DecidableEq

/-- Tab handler (main.rs lines 1867-1886): first header strictly after the
cursor, else first header at or before it; cursor unchanged when the list
has no header at all. -/
def tabTarget (items : List SelectItem) (cur : Nat) : Nat :=
  match ((List.range items.length).filter
      (fun i => cur < i && ((items.getD i (.file 0)).isHeader))).head? with
  | some i => i
  | none =>
      match ((List.range (cur + 1)).filter
          (fun i => (items.getD i (.file 0)).isHeader)).head? with
      | some i => i
      | none => cur

/-- BackTab handler (main.rs lines 1887-1905): last header strictly before
the cursor, else last header at or after it; cursor unchanged when the list
has no header at all. -/
def backTabTarget (items : List SelectItem) (cur : Nat) : Nat :=
  match ((List.range cur).filter
      (fun i => (items.getD i (.file 0)).isHeader)).getLast? with
  | some i => i
  | none =>
      match ((List.range items.length).filter
          (fun i => cur ≤ i && ((items.getD i (.file 0)).isHeader))).getLast? with
      | some i => i
      | none => cur

/-- Outcome of one key dispatch of `interactive_file_select`: either the
loop continues with a new state, or the function returns `Ok` of a set of
file indices (the Enter branch returns the current selection, main.rs lines
1936-1950; the Esc and q branch returns the empty vector after printing
"Cancelled.", main.rs lines 1951-1961). -/
inductive SelectOutcome where
  | next (st : FileSelectState)
  | done (fileIdxs : Finset Nat)
  deriving DecidableEq

/-- One iteration of the `interactive_file_select` key dispatch
(main.rs lines 1850-1963).  `clToFiles` models the `cl_to_files` map built
at entry (main.rs lines 1702-1705). -/
def fileSelectStep (items : List SelectItem) (clToFiles : List Char → List Nat)
    (st : FileSelectState) (k : SelectKey) : SelectOutcome :=
  match k with
  | .up => .next { st with selected_idx := moveUp items.length st.selected_idx }
  | .down => .next { st with selected_idx := moveDown items.length st.selected_idx }
  | .tab => .next { st with selected_idx := tabTarget items st.selected_idx }
  | .backTab => .next { st with selected_idx := backTabTarget items st.selected_idx }
  | .space =>
      match items.getD st.selected_idx (.file 0) with
      | .clHeader cl =>
          .next { st with selected_set := toggleHeader (clToFiles cl) st.selected_set }
      | .file idx =>
          .next { st with selected_set := toggleFile idx st.selected_set }
  | .enter => .done st.selected_set
  | .esc => .done ∅

/-! ## Anchored-frame scroll compensation -/

/-- Anchor state of the render loop: current render row and the
`first_render` flag (main.rs lines 1749-1750 and 2471-2472). -/
structure RenderState where
  render_row : Nat
  first_render : Bool
  deriving DecidableEq

/-- The one-shot anchor correction (main.rs lines 1829-1846 in
`interactive_file_select`, lines 2511-2528 in
`interactive_select_with_desc`): if the cursor ended on a row other than
`render_row + linesRendered`, the terminal scrolled; recompute the row as
`end_row - linesRendered` floored at zero. -/
def adjustOnce (linesRendered renderRow endRow : Nat) : Nat :=
  if endRow ≠ renderRow + linesRendered then
    if endRow ≥ linesRendered then endRow - linesRendered else 0
  else renderRow

/-- One frame of the render loop as it affects the anchor: the correction
runs only while `first_render` is set, and clears the flag. -/
def renderFrame (linesRendered : Nat) (st : RenderState) (endRow : Nat) : RenderState :=
  if st.first_render then
    { render_row := adjustOnce linesRendered st.render_row endRow,
      first_render := false }
  else st

/-- The anchor state after a sequence of frames, each reporting the actual
cursor end row observed after printing. -/
def renderLoop (linesRendered : Nat) (st : RenderState) (endRows : List Nat) : RenderState :=
  endRows.foldl (renderFrame linesRendered) st

/-- Lines printed per frame by `interactive_file_select`
(main.rs line 1831): header, blank, the items, blank, footer. -/
def fileSelectLinesRendered (nItems : Nat) : Nat := 2 + nItems + 2

/-- Lines printed per frame by `interactive_select_with_desc`
(main.rs line 2513): header, blank, the items. -/
def selectWithDescLinesRendered (nItems : Nat) : Nat := 2 + nItems

/-! ## Raw-mode terminal session of `cmd_annotate` -/

/-- Terminal mode state: whether raw keyboard input is enabled and whether
the cursor is visible. -/
structure TermState where
  rawMode : Bool
  cursorVisible : Bool
  deriving DecidableEq

/-- Which of the fallible terminal operations of `cmd_annotate`
(main.rs lines 2740-2752) fail during a run.  A failing operation leaves
the terminal state unchanged and, where followed by `?`, returns early. -/
structure AnnotateFailures where
  enableRawFails : Bool
  clearHideFails : Bool
  viewerFails : Bool
  showCursorFails : Bool
  disableRawFails : Bool
  deriving DecidableEq

/-- The terminal-state trace of `cmd_annotate` (main.rs lines 2740-2752):
`enable_raw_mode()?`, then `execute!(Clear(All), Hide)?`, then
`annotate_viewer` (fallible, no early return), then `execute!(Show)?`,
then `disable_raw_mode()?`.  Returns the final terminal state and whether
the call returned `Ok`.  The transient cursor show/hide of `prompt_search`
is internal to the viewer and not tracked. -/
def cmdAnnotateTerm (f : AnnotateFailures) : TermState × Bool :=
  let s0 : TermState := { rawMode := false, cursorVisible := true }
  if f.enableRawFails then (s0, false) else
  let s1 : TermState := { s0 with rawMode := true }
  if f.clearHideFails then (s1, false) else
  let s2 : TermState := { s1 with cursorVisible := false }
  let viewerOk := !f.viewerFails
  if f.showCursorFails then (s2, false) else
  let s3 : TermState := { s2 with cursorVisible := true }
  if f.disableRawFails then (s3, false) else
  ({ s3 with rawMode := false }, viewerOk)

/-! ## Text metrics and pager line truncation -/

/-- Modelled from the spec: per-character display width.  The
`unicode_width` crate used by `visual_width` (main.rs lines 2609-2614) is
not part of src/; following the spec's description, a combining mark
contributes 0 columns, a wide (CJK and similar) glyph 2, and any other
character 1.  The ranges cover the characters exercised here. -/
def charWidth (c : Char) : Nat :=
  if 0x300 ≤ c.toNat ∧ c.toNat ≤ 0x36F then 0
  else if (0x1100 ≤ c.toNat ∧ c.toNat ≤ 0x115F)
       ∨ (0x2E80 ≤ c.toNat ∧ c.toNat ≤ 0xA4CF)
       ∨ (0xAC00 ≤ c.toNat ∧ c.toNat ≤ 0xD7A3)
       ∨ (0xF900 ≤ c.toNat ∧ c.toNat ≤ 0xFAFF)
       ∨ (0xFF00 ≤ c.toNat ∧ c.toNat ≤ 0xFF60) then 2
  else 1

/-- Display-column width of a string: the sum of its characters' widths
(the measure `visual_width` computes via the `unicode_width` crate; ANSI
escape stripping is irrelevant to the plain strings considered here). -/
def displayWidth (s : List Char) : Nat := (s.map charWidth).sum

/-- The line truncation of `render_annotate_page` (main.rs lines
2890-2898): if the line has more than `termWidth` characters, keep the
first `termWidth - 1` characters and append a `…`.  The count is
`chars().count()`, i.e. characters, not display columns. -/
def truncateLine (termWidth : Nat) (s : List Char) : List Char :=
  if s.length > termWidth then s.take (termWidth - 1) ++ ['…'] else s

/-! ## Concrete data used by counterexamples and witnesses -/

/-- An annotate line with all fields empty. -/
def dummyLine : AnnotateLine := ⟨[], [], [], []⟩

/-- A 500-line annotate dataset (the spec's pager scenario). -/
def lines500 : List AnnotateLine := List.replicate 500 dummyLine

/-- A two-item selector list: one changelist header and one file. -/
def demoItems : List SelectItem := [.clHeader ['1'], .file 0]

/-- The `cl_to_files` map of `demoItems`: changelist "1" owns file 0. -/
def demoClToFiles : List Char → List Nat := fun _ => [0]

/-! ## Helper lemmas -/

theorem moveDown_eq_mod (L c : Nat) (h : c < L) : moveDown L c = (c + 1) % L := by
  unfold moveDown
  by_cases h1 : c < L - 1
  · rw [if_pos h1, Nat.mod_eq_of_lt (by omega)]
  · rw [if_neg h1]
    have hc : c + 1 = L := by omega
    rw [hc, Nat.mod_self]

theorem moveUp_eq_mod (L c : Nat) (h : c < L) : moveUp L c = (c + (L - 1)) % L := by
  unfold moveUp
  by_cases h1 : c > 0
  · rw [if_pos h1]
    have h2 : c + (L - 1) = (c - 1) + L := by omega
    rw [h2, Nat.add_mod_right, Nat.mod_eq_of_lt (by omega)]
  · rw [if_neg h1]
    have h0 : c = 0 := by omega
    subst h0
    rw [Nat.zero_add, Nat.mod_eq_of_lt (by omega)]

theorem moveDown_iterate (L : Nat) (hL : 1 ≤ L) (n : Nat) :
    (moveDown L)^[n] 0 = n % L := by
  induction n with
  | zero => simp
  | succ n ih =>
      rw [Function.iterate_succ_apply', ih,
        moveDown_eq_mod L (n % L) (Nat.mod_lt _ (by omega)), Nat.mod_add_mod]

/-! ## Claim theorems -/

/-- C7: for every non-empty item list of length `L` and every `n`, pressing
Down `n` times from cursor 0 leaves the cursor at `n % L`; Up and Down move
the cursor by one, wrapping between the first and the last item. -/
theorem C7_cursor_wraparound (L : Nat) (hL : 1 ≤ L) (n : Nat) :
    (moveDown L)^[n] 0 = n % L ∧
    (∀ c, c < L → moveDown L c = (c + 1) % L ∧ moveUp L c = (c + (L - 1)) % L) ∧
    moveDown L (L - 1) = 0 ∧ moveUp L 0 = L - 1 := by
  refine ⟨moveDown_iterate L hL n, fun c hc => ⟨moveDown_eq_mod L c hc, moveUp_eq_mod L c hc⟩, ?_, ?_⟩
  · rw [moveDown_eq_mod L (L - 1) (by omega)]
    have h : L - 1 + 1 = L := by omega
    rw [h, Nat.mod_self]
  · unfold moveUp
    simp

/-- Witness for C7 at `L = 3`, `n = 7`. -/
theorem C7_cursor_wraparound_witness :
    (moveDown 3)^[7] 0 = 1 ∧ moveDown 3 1 = 2 ∧ moveUp 3 0 = 2 := by
  have h := C7_cursor_wraparound 3 (by decide) 7
  exact ⟨h.1, ((h.2.1 1 (by decide)).1).trans (by decide), h.2.2.2⟩

/-- C10: with `current_match_idx` absent (no committed query, or a query
with no matches), the keys n, p and N leave the whole viewer state
unchanged. -/
theorem C10_match_nav_noop (lines : List AnnotateLine) (visible : Nat)
    (st : ViewerState) (h : st.current_match_idx = none) :
    viewerStep lines visible st .nextMatch = st ∧
    viewerStep lines visible st .prevMatch = st := by
  obtain ⟨tl, q, ms, cm⟩ := st
  simp only at h
  subst h
  exact ⟨rfl, rfl⟩

/-- Witness for C10 at a concrete state with no current match. -/
theorem C10_match_nav_noop_witness :
    viewerStep [] 10 ⟨5, none, [], none⟩ .nextMatch = ⟨5, none, [], none⟩ ∧
    viewerStep [] 10 ⟨5, none, [], none⟩ .prevMatch = ⟨5, none, [], none⟩ :=
  C10_match_nav_noop [] 10 ⟨5, none, [], none⟩ rfl

/-- C2, counterexample: with total = 500 lines and viewport height = 40,
PageDown from `top_line = 460` does not stay at 460 as claimed: the
handler clamps at `total - 1`, so it moves to 499. -/
theorem C2_counterexample :
    (viewerStep lines500 40 ⟨460, none, [], none⟩ .pageDown).top_line = 499 ∧
    (499 : Nat) ≠ 460 := by
  constructor
  · show min (460 + 40) (lines500.length - 1) = 499
    simp [lines500]
  · decide

/-- C2, amended: PageUp moves `top_line` down by the viewport height
floored at 0, Home sets it to 0, End sets it to `total - height` floored
at 0, but PageDown clamps at `total - 1` rather than `total - height`:
with total = 500 and height = 40, End gives 460 and Home gives 0 as
claimed, while PageDown from 460 overscrolls to 499. -/
theorem C2_viewport_clamping (lines : List AnnotateLine) (visible : Nat)
    (st : ViewerState) :
    (viewerStep lines visible st .pageUp).top_line = st.top_line - visible ∧
    (viewerStep lines visible st .home).top_line = 0 ∧
    (viewerStep lines visible st .endKey).top_line = lines.length - visible ∧
    (viewerStep lines visible st .pageDown).top_line
      = min (st.top_line + visible) (lines.length - 1) ∧
    (viewerStep lines500 40 ⟨460, none, [], none⟩ .endKey).top_line = 460 ∧
    (viewerStep lines500 40 ⟨460, none, [], none⟩ .home).top_line = 0 ∧
    (viewerStep lines500 40 ⟨460, none, [], none⟩ .pageDown).top_line = 499 := by
  refine ⟨rfl, rfl, rfl, rfl, ?_, rfl, ?_⟩
  · show lines500.length - 40 = 460
    simp [lines500]
  · show min (460 + 40) (lines500.length - 1) = 499
    simp [lines500]

/-- C1, counterexample: in the multi-select file selector with nothing
selected, the Enter branch and the Esc branch return the very same value,
`Ok` of an empty selection; the claimed present-empty versus absent
distinction does not exist, so the caller cannot tell confirmation from
cancellation. -/
theorem C1_counterexample :
    fileSelectStep demoItems demoClToFiles ⟨0, ∅⟩ .enter = .done (∅ : Finset Nat) ∧
    fileSelectStep demoItems demoClToFiles ⟨0, ∅⟩ .esc = .done (∅ : Finset Nat) ∧
    fileSelectStep demoItems demoClToFiles ⟨0, ∅⟩ .enter
      = fileSelectStep demoItems demoClToFiles ⟨0, ∅⟩ .esc :=
  ⟨rfl, rfl, rfl⟩

/-- C1, amended: Enter returns `Ok` of the current selection set (possibly
empty) and Esc or q returns `Ok` of an empty list; when zero leaves are
selected the two return values coincide, so the two outcomes are not
distinguishable by the caller (cancellation differs only in the printed
"Cancelled." message). -/
theorem C1_confirm_vs_cancel (items : List SelectItem)
    (clToFiles : List Char → List Nat) (st : FileSelectState) :
    fileSelectStep items clToFiles st .enter = .done st.selected_set ∧
    fileSelectStep items clToFiles st .esc = .done ∅ ∧
    (st.selected_set = ∅ →
      fileSelectStep items clToFiles st .enter
        = fileSelectStep items clToFiles st .esc) := by
  refine ⟨rfl, rfl, fun h => ?_⟩
  show SelectOutcome.done st.selected_set = SelectOutcome.done ∅
  rw [h]

/-- Witness for C1's amended statement at an empty selection. -/
theorem C1_confirm_vs_cancel_witness :
    fileSelectStep demoItems demoClToFiles ⟨1, ∅⟩ .enter
      = fileSelectStep demoItems demoClToFiles ⟨1, ∅⟩ .esc :=
  (C1_confirm_vs_cancel demoItems demoClToFiles ⟨1, ∅⟩).2.2 rfl

/-- C3: evaluation of `cmd_annotate`'s terminal-state trace at its failing
inputs.  If the clear-and-hide write right after `enable_raw_mode` fails,
the error is returned with raw mode still enabled; if the cursor-show
write after the viewer fails, the error is returned with raw mode still
enabled and the cursor still hidden.  (A failure inside the viewer itself
is cleaned up, and the all-success run restores everything.) -/
theorem C3_cleanup_paths :
    cmdAnnotateTerm ⟨false, true, false, false, false⟩
      = ({ rawMode := true, cursorVisible := true }, false) ∧
    cmdAnnotateTerm ⟨false, false, false, true, false⟩
      = ({ rawMode := true, cursorVisible := false }, false) ∧
    cmdAnnotateTerm ⟨false, false, true, false, false⟩
      = ({ rawMode := false, cursorVisible := true }, false) ∧
    cmdAnnotateTerm ⟨false, false, false, false, false⟩
      = ({ rawMode := false, cursorVisible := true }, true) := by
  decide

/-- C4, counterexample: the pager truncates by character count, not by
display columns.  At terminal width 4, a line of five wide CJK glyphs is
cut to three glyphs plus the ellipsis — 7 display columns, wider than the
4-column budget the claim asserts. -/
theorem C4_counterexample :
    truncateLine 4 (List.replicate 5 '好') = List.replicate 3 '好' ++ ['…'] ∧
    displayWidth (truncateLine 4 (List.replicate 5 '好')) = 7 ∧
    ¬ displayWidth (truncateLine 4 (List.replicate 5 '好')) ≤ 4 := by
  decide

/-- C4, amended: every rendered line is truncated to the terminal width
measured in characters (each code point counting 1, regardless of its
display width): a line of at most `termWidth` characters is kept whole,
a longer one is cut to its first `termWidth - 1` characters with a single
ellipsis character (itself of display width 1) appended in their place, so
the result never exceeds `termWidth` characters. -/
theorem C4_char_truncation (w : Nat) (s : List Char) (hw : 1 ≤ w) :
    (truncateLine w s).length ≤ w ∧
    (s.length ≤ w → truncateLine w s = s) ∧
    (w < s.length → truncateLine w s = s.take (w - 1) ++ ['…']) ∧
    charWidth '…' = 1 := by
  unfold truncateLine
  by_cases h : s.length > w
  · rw [if_pos h]
    refine ⟨?_, fun hle => absurd h (by omega), fun _ => rfl, by decide⟩
    simp only [List.length_append, List.length_take, List.length_singleton]
    omega
  · rw [if_neg h]
    exact ⟨by omega, fun _ => rfl, fun hlt => absurd hlt (by omega), by decide⟩

/-- Witness for C4's amended statement at width 4. -/
theorem C4_char_truncation_witness :
    (truncateLine 4 ['a', 'b', 'c', 'd', 'e']).length ≤ 4 ∧
    truncateLine 4 ['a', 'b', 'c', 'd', 'e'] = ['a', 'b', 'c'] ++ ['…'] := by
  have h := C4_char_truncation 4 ['a', 'b', 'c', 'd', 'e'] (by decide)
  exact ⟨h.1, (h.2.2.1 (by decide)).trans (by decide)⟩

theorem renderLoop_not_first (lr row : Nat) (es : List Nat) :
    renderLoop lr ⟨row, false⟩ es = ⟨row, false⟩ := by
  induction es with
  | nil => rfl
  | cons a as ih => simpa [renderLoop, renderFrame] using ih

/-- C5: over any invocation (any non-empty sequence of frames), the anchor
correction runs exactly once, after the first frame: the state after the
whole run equals the state right after the first frame, whose row is the
corrected anchor; when the observed end row differs from
`anchor + lines_printed` the corrected row is `max 0 (end_row - lines_printed)`,
and otherwise the anchor is kept; later frames never change it. -/
theorem C5_anchor_correction_once (lr startRow e : Nat) (rest : List Nat) :
    renderLoop lr ⟨startRow, true⟩ (e :: rest) = ⟨adjustOnce lr startRow e, false⟩ ∧
    (e ≠ startRow + lr →
      (adjustOnce lr startRow e : Int) = max 0 ((e : Int) - (lr : Int))) ∧
    (e = startRow + lr → adjustOnce lr startRow e = startRow) := by
  refine ⟨?_, ?_, ?_⟩
  · have h1 : renderFrame lr ⟨startRow, true⟩ e = ⟨adjustOnce lr startRow e, false⟩ := by
      simp [renderFrame]
    calc renderLoop lr ⟨startRow, true⟩ (e :: rest)
        = renderLoop lr ⟨adjustOnce lr startRow e, false⟩ rest := by
          simp [renderLoop, h1]
      _ = ⟨adjustOnce lr startRow e, false⟩ := renderLoop_not_first lr _ rest
  · intro hne
    unfold adjustOnce
    rw [if_pos hne]
    by_cases hge : e ≥ lr
    · rw [if_pos hge]
      omega
    · rw [if_neg hge]
      omega
  · intro he
    simp [adjustOnce, he]

/-- Witness for C5: a three-frame run with scroll detected on the first
frame (end row 20 instead of 5 + 10), and a no-scroll first frame. -/
theorem C5_anchor_correction_once_witness :
    renderLoop 10 ⟨5, true⟩ (20 :: [99, 7]) = ⟨adjustOnce 10 5 20, false⟩ ∧
    (adjustOnce 10 5 20 : Int) = max 0 ((20 : Int) - (10 : Int)) ∧
    adjustOnce 10 5 15 = 5 :=
  ⟨(C5_anchor_correction_once 10 5 20 [99, 7]).1,
   (C5_anchor_correction_once 10 5 20 [99, 7]).2.1 (by decide),
   (C5_anchor_correction_once 10 5 15 []).2.2 (by decide)⟩

theorem mem_foldl_erase (l : List Nat) (sel : Finset Nat) (j : Nat) :
    j ∈ l.foldl (fun s i => s.erase i) sel ↔ j ∈ sel ∧ j ∉ l := by
  induction l generalizing sel with
  | nil => simp
  | cons a as ih =>
      simp only [List.foldl_cons, ih, Finset.mem_erase, List.mem_cons]
      tauto

theorem mem_foldl_insert (l : List Nat) (sel : Finset Nat) (j : Nat) :
    j ∈ l.foldl (fun s i => insert i s) sel ↔ j ∈ sel ∨ j ∈ l := by
  induction l generalizing sel with
  | nil => simp
  | cons a as ih =>
      simp only [List.foldl_cons, ih, Finset.mem_insert, List.mem_cons]
      tauto

/-- C6: Space on a header whose leaves are not all selected selects every
one of its leaves; Space on a header with all leaves selected deselects
them all; and a single Space on a partially-selected header leaves the
group fully (hence non-emptily) selected, never empty. -/
theorem C6_header_toggle (fileIndices : List Nat) (sel : Finset Nat) :
    (¬ (∀ i ∈ fileIndices, i ∈ sel) →
      ∀ i ∈ fileIndices, i ∈ toggleHeader fileIndices sel) ∧
    ((∀ i ∈ fileIndices, i ∈ sel) →
      ∀ i ∈ fileIndices, i ∉ toggleHeader fileIndices sel) ∧
    ((∃ i ∈ fileIndices, i ∈ sel) ∧ ¬ (∀ i ∈ fileIndices, i ∈ sel) →
      ∃ i ∈ fileIndices, i ∈ toggleHeader fileIndices sel) := by
  by_cases hall : ∀ i ∈ fileIndices, i ∈ sel
  · have hcond : fileIndices.all (fun i => decide (i ∈ sel)) = true := by
      simp only [List.all_eq_true, decide_eq_true_eq]
      exact hall
    refine ⟨fun hn => absurd hall hn, fun _ i hi => ?_, fun hp => absurd hall hp.2⟩
    unfold toggleHeader
    rw [if_pos hcond, mem_foldl_erase]
    tauto
  · have hcond : ¬ fileIndices.all (fun i => decide (i ∈ sel)) = true := by
      simp only [List.all_eq_true, decide_eq_true_eq]
      exact hall
    have hmem : ∀ i ∈ fileIndices, i ∈ toggleHeader fileIndices sel := by
      intro i hi
      unfold toggleHeader
      rw [if_neg hcond, mem_foldl_insert]
      exact Or.inr hi
    refine ⟨fun _ => hmem, fun h => absurd h hall, fun hp => ?_⟩
    obtain ⟨⟨i, hi, _⟩, _⟩ := hp
    exact ⟨i, hi, hmem i hi⟩

/-- Witness for C6: a header with leaves 1, 2, 3 of which 1 and 2 are
selected goes to all three selected; with all three selected it goes to
none selected. -/
theorem C6_header_toggle_witness :
    (∀ i ∈ [1, 2, 3], i ∈ toggleHeader [1, 2, 3] ({1, 2} : Finset Nat)) ∧
    (∃ i ∈ [1, 2, 3], i ∈ toggleHeader [1, 2, 3] ({1, 2} : Finset Nat)) ∧
    (∀ i ∈ [1, 2, 3], i ∉ toggleHeader [1, 2, 3] ({1, 2, 3} : Finset Nat)) :=
  ⟨(C6_header_toggle [1, 2, 3] {1, 2}).1 (by decide),
   (C6_header_toggle [1, 2, 3] {1, 2}).2.2 ⟨⟨1, by decide, by decide⟩, by decide⟩,
   (C6_header_toggle [1, 2, 3] {1, 2, 3}).2.1 (by decide)⟩

/-- C9: with a current match and a non-empty match list, n advances
`current_match_idx` by one modulo the number of matches and p or N moves
it back by one modulo the number of matches (both wrapping), and each
navigation re-centres the viewport on the newly selected match:
`top_line = max(0, match_line - height/2)`. -/
theorem C9_match_navigation (lines : List AnnotateLine) (visible : Nat)
    (st : ViewerState) (idx : Nat) (hc : st.current_match_idx = some idx)
    (hidx : idx < st.search_matches.length) :
    (viewerStep lines visible st .nextMatch).current_match_idx
      = some ((idx + 1) % st.search_matches.length) ∧
    (viewerStep lines visible st .nextMatch).top_line
      = st.search_matches.getD ((idx + 1) % st.search_matches.length) 0
          - visible / 2 ∧
    (viewerStep lines visible st .prevMatch).current_match_idx
      = some ((idx + (st.search_matches.length - 1)) % st.search_matches.length) ∧
    (viewerStep lines visible st .prevMatch).top_line
      = st.search_matches.getD
          ((idx + (st.search_matches.length - 1)) % st.search_matches.length) 0
          - visible / 2 := by
  obtain ⟨tl, q, ms, cm⟩ := st
  simp only at hc hidx ⊢
  subst hc
  have hlen : 0 < ms.length := by omega
  have hne : ms.isEmpty = false := by
    cases ms with
    | nil => simp at hlen
    | cons a as => rfl
  have hprev : (if idx = 0 then ms.length - 1 else idx - 1)
      = (idx + (ms.length - 1)) % ms.length := by
    by_cases h0 : idx = 0
    · subst h0
      rw [if_pos rfl, Nat.zero_add, Nat.mod_eq_of_lt (by omega)]
    · rw [if_neg h0]
      have h2 : idx + (ms.length - 1) = (idx - 1) + ms.length := by omega
      rw [h2, Nat.add_mod_right, Nat.mod_eq_of_lt (by omega)]
  refine ⟨?_, ?_, ?_, ?_⟩ <;> simp [viewerStep, hne, hprev]

/-- The pager state used by the C9 witness: matches at lines 3, 10, 22
with the third one current. -/
def stC9 : ViewerState := ⟨0, some ['c', 'l', '1'], [3, 10, 22], some 2⟩

/-- Witness for C9 at `stC9` with viewport height 4: n wraps from match 2
to match 0 (line 3, centred at 1), p moves back to match 1 (line 10,
centred at 8). -/
theorem C9_match_navigation_witness :
    (viewerStep [] 4 stC9 .nextMatch).current_match_idx = some 0 ∧
    (viewerStep [] 4 stC9 .nextMatch).top_line = 1 ∧
    (viewerStep [] 4 stC9 .prevMatch).current_match_idx = some 1 ∧
    (viewerStep [] 4 stC9 .prevMatch).top_line = 8 := by
  have h := C9_match_navigation [] 4 stC9 2 rfl (by decide)
  exact ⟨h.1.trans (by decide), h.2.1.trans (by decide),
    h.2.2.1.trans (by decide), h.2.2.2.trans (by decide)⟩

/-- Case-insensitive containment of the raw query in at least one tracked
field of a line: the membership property the claim attributes to the
committed search's match list. -/
def fieldMatchesCI (l : AnnotateLine) (rawQuery : List Char) : Prop :=
  toLowerStr rawQuery <:+: toLowerStr l.cl_number ∨
  toLowerStr rawQuery <:+: toLowerStr l.username ∨
  toLowerStr rawQuery <:+: toLowerStr l.date ∨
  toLowerStr rawQuery <:+: toLowerStr l.line_content

theorem matchesLine_iff (l : AnnotateLine) (raw : List Char) :
    matchesLine l (toLowerStr raw) = true ↔ fieldMatchesCI l raw := by
  simp [matchesLine, containsSub, fieldMatchesCI, or_assoc]

theorem mem_find_search_matches (lines : List AnnotateLine) (q : List Char)
    (i : Nat) :
    i ∈ find_search_matches lines q ↔
      ∃ l, lines[i]? = some l ∧ matchesLine l q = true := by
  unfold find_search_matches
  simp only [List.mem_map, List.mem_filter]
  constructor
  · rintro ⟨⟨j, l⟩, ⟨hmem, hp⟩, rfl⟩
    exact ⟨l, List.mk_mem_enum_iff_getElem?.mp hmem, hp⟩
  · rintro ⟨l, hget, hp⟩
    exact ⟨(i, l), ⟨List.mk_mem_enum_iff_getElem?.mpr hget, hp⟩, rfl⟩

theorem find_search_matches_sorted (lines : List AnnotateLine) (q : List Char) :
    (find_search_matches lines q).Pairwise (· < ·) := by
  have hsub : List.Sublist (find_search_matches lines q)
      (lines.enum.map Prod.fst) := (List.filter_sublist _).map Prod.fst
  rw [List.enum_map_fst] at hsub
  exact (List.pairwise_lt_range _).sublist hsub

/-- C8: committing a non-empty query stores as match list exactly the
indices, in ascending order, of the lines in which at least one tracked
field contains the query case-insensitively; when the list is non-empty
the viewport jumps to `max(0, first_match - height/2)` with
`current_match = 0`, and when it is empty `current_match` is absent (and
the viewport stays put). -/
theorem C8_search_commit (lines : List AnnotateLine) (visible : Nat)
    (st : ViewerState) (query : List Char) :
    (commitSearch lines visible st query).search_matches
      = find_search_matches lines (toLowerStr query) ∧
    (∀ i, i ∈ find_search_matches lines (toLowerStr query) ↔
      ∃ h : i < lines.length, fieldMatchesCI (lines.get ⟨i, h⟩) query) ∧
    (find_search_matches lines (toLowerStr query)).Pairwise (· < ·) ∧
    (find_search_matches lines (toLowerStr query) ≠ [] →
      (commitSearch lines visible st query).top_line
        = (find_search_matches lines (toLowerStr query)).headD 0 - visible / 2 ∧
      (commitSearch lines visible st query).current_match_idx = some 0) ∧
    (find_search_matches lines (toLowerStr query) = [] →
      (commitSearch lines visible st query).current_match_idx = none ∧
      (commitSearch lines visible st query).top_line = st.top_line) := by
  refine ⟨rfl, ?_, find_search_matches_sorted lines _, ?_, ?_⟩
  · intro i
    rw [mem_find_search_matches]
    constructor
    · rintro ⟨l, hget, hp⟩
      obtain ⟨h, heq⟩ := List.getElem?_eq_some.mp hget
      refine ⟨h, ?_⟩
      rw [← matchesLine_iff]
      simpa [List.get_eq_getElem, heq] using hp
    · rintro ⟨h, hp⟩
      refine ⟨lines.get ⟨i, h⟩, ?_, (matchesLine_iff _ _).mpr hp⟩
      exact List.getElem?_eq_some.mpr ⟨h, rfl⟩
  · intro hne
    have hne' : (find_search_matches lines (toLowerStr query)).isEmpty = false := by
      simpa [List.isEmpty_iff] using hne
    constructor <;> simp [commitSearch, hne']
  · intro hnil
    constructor <;> simp [commitSearch, hnil]

/-- The annotate dataset of the C8 witness: 23 lines whose text contains
"CL1" exactly at indices 3, 10 and 22. -/
def searchDemo : List AnnotateLine :=
  (List.range 23).map (fun i =>
    if i = 3 ∨ i = 10 ∨ i = 22 then ⟨[], [], [], ['C', 'L', '1']⟩
    else ⟨[], [], [], ['x']⟩)

/-- Witness for C8: committing "cl1" over `searchDemo` with viewport
height 40 yields matches `[3, 10, 22]`, current match 0 and
`top_line = max(0, 3 - 20) = 0`. -/
theorem C8_search_commit_witness :
    (commitSearch searchDemo 40 ⟨0, none, [], none⟩ ['c', 'l', '1']).search_matches
      = [3, 10, 22] ∧
    (commitSearch searchDemo 40 ⟨0, none, [], none⟩ ['c', 'l', '1']).current_match_idx
      = some 0 ∧
    (commitSearch searchDemo 40 ⟨0, none, [], none⟩ ['c', 'l', '1']).top_line = 0 := by
  have h := C8_search_commit searchDemo 40 ⟨0, none, [], none⟩ ['c', 'l', '1']
  have hms : find_search_matches searchDemo (toLowerStr ['c', 'l', '1'])
      = [3, 10, 22] := by decide
  have hne : find_search_matches searchDemo (toLowerStr ['c', 'l', '1']) ≠ [] := by
    rw [hms]
    decide
  refine ⟨h.1.trans hms, (h.2.2.2.1 hne).2, (h.2.2.2.1 hne).1.trans ?_⟩
  rw [hms]
  decide

end Rust4p
